import Mathlib

/-!
Verification of the TensorFlow easyblock
(`easybuild/easyblocks/t/tensorflow.py`, class `EB_TensorFlow`).

The easyblock is straight-line orchestration: it builds an
environment-variable mapping in `configure_step`, a substitution rule set
and a bazel command line in `build_step`, and a pip command plus an
optional smoke-test phase in `install_step`.  Each of those pieces is
embedded below as an executable Lean function, translated directly from
the Python source.  Host-framework primitives that the easyblock merely
calls (`get_software_root`, `which`, `glob`, `apply_regex_substitutions`,
`env.setvar`, `os.path.join`) are represented by explicit parameters or
by small executable models noted in their doc comments.
-/

/-- Model of Python `os.path.join(a, b)` for the relative second components
used by the easyblock: concatenation with a single separator. -/
def path_join (a b : String) : String := a ++ "/" ++ b

/-- If `p` is a prefix of `s`, return the remainder of `s` after `p`. -/
def dropPfx : List Char → List Char → Option (List Char)
  | [], s => some s
  | _ :: _, [] => none
  | p :: ps, c :: cs => if p = c then dropPfx ps cs else none

/-- Fuelled left-to-right, non-overlapping replacement of every occurrence
of the pattern `p` by `r` (replacement text is not rescanned), the
semantics of Python `re.sub` on a metacharacter-free pattern.  The fuel is
instantiated with the length of the subject string, which suffices because
every step consumes at least one character of a nonempty pattern. -/
def replace_fuel (p r : List Char) : Nat → List Char → List Char
  | _, [] => []
  | 0, s => s
  | Nat.succ fuel, c :: cs =>
    match p, dropPfx p (c :: cs) with
    | _ :: _, some rest => r ++ replace_fuel p r fuel rest
    | _, _ => c :: replace_fuel p r fuel cs

/-- Replace every occurrence of the literal pattern `p` in `s` by `r`. -/
def replace_all (s p r : String) : String :=
  ⟨replace_fuel p.data r.data s.data.length s.data⟩

/-- Modelled from the spec: the host framework utility
`apply_regex_substitutions` applies a list of (pattern, replacement)
text substitutions to a file in place, in list order; for the literal
(metacharacter-free) patterns considered here each substitution is a
plain replace-all. -/
def apply_subs (subs : List (String × String)) (txt : String) : String :=
  subs.foldl (fun t pr => replace_all t pr.1 pr.2) txt

/-- Does the pattern `p` occur as a contiguous sublist of `s`? -/
def sub_occurs (p : List Char) : List Char → Bool
  | [] => (dropPfx p []).isSome
  | c :: cs => (dropPfx p (c :: cs)).isSome || sub_occurs p cs

/-- Does the string `p` occur as a substring of `s`? -/
def str_occurs (p s : String) : Bool := sub_occurs p.data s.data

/-- The inputs that `EB_TensorFlow.configure_step` reads when it builds
`config_env_vars` (tensorflow.py lines 85-120): the resolved installation
roots of the four optional dependencies (`get_software_root` returns a
path or `None`, modelled as `Option String`), the `usempi` toolchain
option, the ambient `$CXXFLAGS`, the python command, the install
directory and python library subdirectory, the `cuda_compute_capabilities`
easyconfig option, the resolved `$CC` compiler path, and the versions
reported by `get_software_version` for CUDA and cuDNN. -/
structure ConfCtx where
  cudaRoot : Option String
  cudnnRoot : Option String
  jemallocRoot : Option String
  openclRoot : Option String
  useMpi : Bool
  cxxflags : String
  pythonCmd : String
  installdir : String
  pylibdir : String
  cudaComputeCapabilities : List String
  ccPath : String
  cudaVersion : String
  cudnnVersion : String

/-- The environment-variable mapping `config_env_vars` built by
`EB_TensorFlow.configure_step` (tensorflow.py lines 92-120), as an
association list: the fifteen unconditional entries, then the four
CUDA-only entries added by `config_env_vars.update` when `cuda_root`
is truthy, then the two cuDNN-only entries added when `cudnn_root` is
truthy.  All keys are distinct, so the association list has the same
lookup behaviour as the Python dict. -/
def config_env_vars (c : ConfCtx) : List (String × String) :=
  [("CC_OPT_FLAGS", c.cxxflags),
   ("MPI_HOME", ""),
   ("PYTHON_BIN_PATH", c.pythonCmd),
   ("PYTHON_LIB_PATH", path_join c.installdir c.pylibdir),
   ("TF_CUDA_CLANG", "0"),
   ("TF_ENABLE_XLA", "0"),
   ("TF_NEED_CUDA", if c.cudaRoot.isSome then "1" else "0"),
   ("TF_NEED_GCP", "0"),
   ("TF_NEED_GDR", "0"),
   ("TF_NEED_HDFS", "0"),
   ("TF_NEED_JEMALLOC", if c.jemallocRoot.isSome then "1" else "0"),
   ("TF_NEED_MPI", if c.useMpi then "1" else "0"),
   ("TF_NEED_OPENCL", if c.openclRoot.isSome then "1" else "0"),
   ("TF_NEED_S3", "0"),
   ("TF_NEED_VERBS", "0")]
  ++ (match c.cudaRoot with
      | some root =>
        [("CUDA_TOOLKIT_PATH", root),
         ("GCC_HOST_COMPILER_PATH", c.ccPath),
         ("TF_CUDA_COMPUTE_CAPABILITIES",
            String.intercalate "," c.cudaComputeCapabilities),
         ("TF_CUDA_VERSION", c.cudaVersion)]
      | none => [])
  ++ (match c.cudnnRoot with
      | some root =>
        [("CUDNN_INSTALL_PATH", root),
         ("TF_CUDNN_VERSION", c.cudnnVersion)]
      | none => [])

/-- `k` is a feature flag keyed to the presence predicate `sel`: in every
configuration the mapping carries `k` with value `"1"` exactly when `sel`
holds and `"0"` otherwise. -/
def isPresenceFlag (sel : ConfCtx → Bool) (k : String) : Prop :=
  ∀ c : ConfCtx,
    (config_env_vars c).lookup k = some (if sel c then "1" else "0")

/-- Two configure contexts that agree on everything except the four
optional-dependency roots. -/
def same_non_roots (c₁ c₂ : ConfCtx) : Prop :=
  c₁.useMpi = c₂.useMpi ∧ c₁.cxxflags = c₂.cxxflags ∧
  c₁.pythonCmd = c₂.pythonCmd ∧ c₁.installdir = c₂.installdir ∧
  c₁.pylibdir = c₂.pylibdir ∧
  c₁.cudaComputeCapabilities = c₂.cudaComputeCapabilities ∧
  c₁.ccPath = c₂.ccPath ∧ c₁.cudaVersion = c₂.cudaVersion ∧
  c₁.cudnnVersion = c₂.cudnnVersion

/-- The feature-flag keys of the mapping other than the three keyed to an
optional-dependency root. -/
def other_flag_keys : List String :=
  ["TF_CUDA_CLANG", "TF_ENABLE_XLA", "TF_NEED_GCP", "TF_NEED_GDR",
   "TF_NEED_HDFS", "TF_NEED_MPI", "TF_NEED_S3", "TF_NEED_VERBS"]

/-- No feature flag other than the dependency-keyed ones changes when only
the four optional-dependency roots change. -/
def flags_frame : Prop :=
  ∀ c₁ c₂ : ConfCtx, same_non_roots c₁ c₂ →
    ∀ k ∈ other_flag_keys,
      (config_env_vars c₁).lookup k = (config_env_vars c₂).lookup k

/-- Claim C1 as stated: each of the four optional dependencies (CUDA,
cuDNN, jemalloc, OpenCL) has a corresponding feature flag in the mapping,
set to "1" exactly when that dependency is present, and the remaining
feature flags are unaffected by the four presence booleans. -/
def c1_claim : Prop :=
  (∃ k, isPresenceFlag (fun c => c.cudaRoot.isSome) k) ∧
  (∃ k, isPresenceFlag (fun c => c.cudnnRoot.isSome) k) ∧
  (∃ k, isPresenceFlag (fun c => c.jemallocRoot.isSome) k) ∧
  (∃ k, isPresenceFlag (fun c => c.openclRoot.isSome) k) ∧
  flags_frame

/-- The fixed list of binutils/GCC binaries patched by
`EB_TensorFlow.build_step` (tensorflow.py line 179). -/
def tool_list : List String :=
  ["ar", "cpp", "dwp", "gcc", "gcov", "ld", "nm", "objcopy",
   "objdump", "strip"]

/-- The per-tool substitution rules accumulated by the loop at
tensorflow.py lines 179-184: for each tool, if `which` resolves it the
rule `(/usr/bin/<tool>, resolved path)` is appended; if `which` fails the
loop raises `EasyBuildError("Failed to determine path to ...")`, modelled
as `Except.error`. -/
def mk_tool_subs (w : String → Option String) :
    List String → Except String (List (String × String))
  | [] => Except.ok []
  | t :: ts =>
    match w t with
    | some p =>
      (mk_tool_subs w ts).map (fun subs => ("/usr/bin/" ++ t, p) :: subs)
    | none => Except.error ("Failed to determine path to " ++ t)

/-- The `regex_subs` rule set of `EB_TensorFlow.build_step`
(tensorflow.py lines 174-188) once the per-tool rules `tsubs` have been
resolved: the three binutils/include rules, then the per-tool rules,
then — only when the `pic` toolchain option is set — the two rules
patching out hardcoded position-independent-executable flags.
`resolve` stands for the framework utility `resolve_path`. -/
def crosstool_rules (binutils_bin : String)
    (lib_paths inc_paths : List String) (resolve : String → String)
    (tsubs : List (String × String)) (pic : Bool) :
    List (String × String) :=
  [("-B/usr/bin/",
    "-B" ++ binutils_bin ++ "/ " ++
      String.intercalate " " (lib_paths.map (fun p => "-L" ++ p ++ "/"))),
   ("(cxx_builtin_include_directory:).*", ""),
   ("^toolchain \x7b",
    "toolchain \x7b\n" ++
      String.intercalate "\n" (inc_paths.map (fun p =>
        "cxx_builtin_include_directory: \"" ++ resolve p ++ "\"")))]
  ++ tsubs
  ++ (if pic then [("-fPIE", "-fPIC"), ("\"-pie\"", "\"-fPIC\"")]
      else [])

/-- The full construction of `regex_subs` in `EB_TensorFlow.build_step`
(tensorflow.py lines 174-188), propagating the fatal error of the tool
loop. -/
def crosstool_regex_subs (binutils_bin : String)
    (lib_paths inc_paths : List String) (resolve : String → String)
    (w : String → Option String) (pic : Bool) :
    Except String (List (String × String)) :=
  (mk_tool_subs w tool_list).map (fun tsubs =>
    crosstool_rules binutils_bin lib_paths inc_paths resolve tsubs pic)

/-- The per-tool substitution rules when every tool of `tool_list`
resolves, `f` giving the resolved path of each tool. -/
def tool_rules (f : String → String) : List (String × String) :=
  tool_list.map (fun t => ("/usr/bin/" ++ t, f t))

/-- The bazel command line assembled by `EB_TensorFlow.build_step`
(tensorflow.py lines 199-221), as the list of its
whitespace-joined elements: the fixed head, the optional
`--copt="-fPIC"` when the `pic` toolchain option is set, the
user-supplied `buildopts`, the optional `--config=cuda` when the CUDA
root resolves, the optional `--config=mkl` when the `with_mkl_dnn`
easyconfig option is set, and the fixed target. -/
def build_cmd (tmpdir : String) (pic : Bool) (buildopts : String)
    (cuda_present with_mkl_dnn : Bool) : List String :=
  ["bazel", "--output_base=" ++ tmpdir, "build", "--compilation_mode=opt",
   "--config=opt", "--subcommands", "--verbose_failures"]
  ++ (if pic then ["--copt=\"-fPIC\""] else [])
  ++ [buildopts]
  ++ (if cuda_present then ["--config=cuda"] else [])
  ++ (if with_mkl_dnn then ["--config=mkl"] else [])
  ++ ["//tensorflow/tools/pip_package:build_pip_package"]

/-- The selection of the GCC internal include directory in
`EB_TensorFlow.build_step` (tensorflow.py lines 150-154) from the result
`res` of `glob.glob(gcc_root/lib/gcc/*/gcc_ver/include)`:
`if res and len(res) == 1` take `res[0]`, otherwise raise
`EasyBuildError`, modelled as `Except.error`. -/
def pinpoint_gcc_inc (res : List String) : Except String String :=
  match res with
  | [p] => Except.ok p
  | other =>
    Except.error
      ("Failed to pinpoint location of GCC include files: " ++
        toString other)

/-- The wheel-installation decision of `EB_TensorFlow.install_step`
(tensorflow.py lines 234-241) on the result `whl_paths` of
`glob.glob(builddir/tensorflow-<version>-*.whl)`: with exactly one match
the pip command is run, otherwise `EasyBuildError` is raised and no
command is run, modelled as `Except.error`. -/
def install_whl (installdir : String) (whl_paths : List String) :
    Except String String :=
  match whl_paths with
  | [whl] =>
    Except.ok
      ("pip install --ignore-installed --prefix=" ++ installdir ++ " " ++
        whl)
  | other =>
    Except.error
      ("Failed to isolate built .whl in " ++ toString other)

/-- Path of a bundled MNIST example script under the source tree, as
joined by `EB_TensorFlow.install_step` (tensorflow.py line 251). -/
def mnist_path (start_dir script : String) : String :=
  path_join (path_join (path_join (path_join start_dir "tensorflow")
    "examples") "tutorials") "mnist" ++ "/" ++ script

/-- The optional smoke-test phase of `EB_TensorFlow.install_step`
(tensorflow.py lines 245-253).  Returns the new value written to
`$PYTHONPATH` (`none` when the phase is skipped and the variable is left
unchanged) and the list of commands run.  `prev_pythonpath` is the
ambient `$PYTHONPATH` (`none` when unset; `os.getenv` with default
turns that into the empty string); `tmpdir1`/`tmpdir2` are the fresh
temporary data directories made for the two scripts. -/
def install_test_phase (runtest : Bool)
    (installdir pylibdir start_dir python_cmd : String)
    (prev_pythonpath : Option String) (tmpdir1 tmpdir2 : String) :
    Option String × List String :=
  if runtest then
    let pythonpath := prev_pythonpath.getD ""
    (some (path_join installdir pylibdir ++ ":" ++ pythonpath),
     [python_cmd ++ " " ++ mnist_path start_dir "mnist_softmax.py" ++
        " --data_dir " ++ tmpdir1,
      python_cmd ++ " " ++ mnist_path start_dir "mnist_with_summaries.py" ++
        " --data_dir " ++ tmpdir2])
  else (none, [])

/-- The order in which Python `sorted(config_env_vars.items())` arranges
the (key, value) pairs: lexicographic on the pair, i.e. by key and, for
equal keys, by value. -/
def item_le (a b : String × String) : Prop :=
  a.1 < b.1 ∨ (a.1 = b.1 ∧ a.2 ≤ b.2)

instance : DecidableRel item_le := fun a b => by
  unfold item_le; infer_instance

instance : IsTotal (String × String) item_le where
  total a b := by
    rcases lt_trichotomy a.1 b.1 with h | h | h
    · exact Or.inl (Or.inl h)
    · rcases le_total a.2 b.2 with h2 | h2
      · exact Or.inl (Or.inr ⟨h, h2⟩)
      · exact Or.inr (Or.inr ⟨h.symm, h2⟩)
    · exact Or.inr (Or.inl h)

instance : IsTrans (String × String) item_le where
  trans a b c hab hbc := by
    rcases hab with hab | ⟨hab, hab2⟩
    · rcases hbc with hbc | ⟨hbc, _⟩
      · exact Or.inl (lt_trans hab hbc)
      · exact Or.inl (hbc ▸ hab)
    · rcases hbc with hbc | ⟨hbc, hbc2⟩
      · exact Or.inl (hab ▸ hbc)
      · exact Or.inr ⟨hab.trans hbc, le_trans hab2 hbc2⟩

/-- The order in which `configure_step` applies the environment variables
(tensorflow.py lines 122-123): the pairs of the mapping sorted as by
Python `sorted`. -/
def env_apply_order (l : List (String × String)) :
    List (String × String) :=
  List.insertionSort item_le l

/-- The sequence of `env.setvar` calls made by `configure_step` for a
given context. -/
def configure_setvar_trace (c : ConfCtx) : List (String × String) :=
  env_apply_order (config_env_vars c)

/-- A concrete configure context with only the cuDNN dependency present,
used as the test point for the claims about the cuDNN entries of the
mapping. -/
def ctx_cudnn_only : ConfCtx :=
  { cudaRoot := none, cudnnRoot := some "/sw/cuDNN/6.0",
    jemallocRoot := none, openclRoot := none, useMpi := false,
    cxxflags := "-O2 -march=native", pythonCmd := "/sw/Python/bin/python",
    installdir := "/sw/TensorFlow", pylibdir := "lib/python2.7/site-packages",
    cudaComputeCapabilities := [], ccPath := "", cudaVersion := "",
    cudnnVersion := "6.0" }

/-- A concrete `which` that resolves every tool under a binutils prefix,
used as the test point for the tool-patching claims. -/
def sample_resolver (t : String) : Option String :=
  some ("/opt/binutils/bin/" ++ t)

/-- A fabricated toolchain-description (CROSSTOOL) fragment containing a
hardcoded `/usr/bin/gcc` token. -/
def sample_crosstool : String := "tool_path: /usr/bin/gcc"

/-! ## Helper lemmas -/

theorem lookup_append (a : String) (l₁ l₂ : List (String × String)) :
    (l₁ ++ l₂).lookup a = ((l₁.lookup a).or (l₂.lookup a)) := by
  induction l₁ with
  | nil => simp [List.lookup]
  | cons p t ih =>
    cases p with
    | mk k v =>
      simp only [List.cons_append, List.lookup]
      cases h : a == k <;> simp [ih]

theorem lookup_mem_values {a : String} {l : List (String × String)}
    {v : String} (h : l.lookup a = some v) : v ∈ l.map Prod.snd := by
  induction l with
  | nil => simp [List.lookup] at h
  | cons p t ih =>
    cases p with
    | mk k w =>
      simp only [List.lookup] at h
      cases hak : a == k with
      | true => rw [hak] at h; simp at h; simp [h]
      | false =>
        rw [hak] at h; simp at h
        exact List.mem_cons_of_mem _ (ih h)

theorem tf_need_cuda_flag :
    isPresenceFlag (fun c => c.cudaRoot.isSome) "TF_NEED_CUDA" := by
  intro c
  rw [config_env_vars, lookup_append, lookup_append]
  simp [List.lookup]

theorem tf_need_jemalloc_flag :
    isPresenceFlag (fun c => c.jemallocRoot.isSome) "TF_NEED_JEMALLOC" := by
  intro c
  rw [config_env_vars, lookup_append, lookup_append]
  simp [List.lookup]

theorem tf_need_opencl_flag :
    isPresenceFlag (fun c => c.openclRoot.isSome) "TF_NEED_OPENCL" := by
  intro c
  rw [config_env_vars, lookup_append, lookup_append]
  simp [List.lookup]

theorem flags_frame_holds : flags_frame := by
  intro c₁ c₂ hs k hk
  obtain ⟨h1, h2, h3, h4, h5, h6, h7, h8, h9⟩ := hs
  fin_cases hk <;>
    · rw [config_env_vars, config_env_vars, lookup_append, lookup_append,
        lookup_append, lookup_append]
      simp [List.lookup, h1]

theorem no_cudnn_flag :
    ¬ ∃ k, isPresenceFlag (fun c => c.cudnnRoot.isSome) k := by
  rintro ⟨k, hk⟩
  have h1 := hk ctx_cudnn_only
  have hmem := lookup_mem_values h1
  have hno :
      ("1" : String) ∉ (config_env_vars ctx_cudnn_only).map Prod.snd := by
    decide
  exact hno hmem

theorem mk_tool_subs_resolved (w : String → Option String)
    (f : String → String) :
    ∀ ts : List String, (∀ t ∈ ts, w t = some (f t)) →
      mk_tool_subs w ts =
        Except.ok (ts.map (fun t => ("/usr/bin/" ++ t, f t))) := by
  intro ts
  induction ts with
  | nil => intro _; rfl
  | cons t ts ih =>
    intro h
    have ht := h t (List.mem_cons_self t ts)
    rw [mk_tool_subs, ht, ih (fun u hu => h u (List.mem_cons_of_mem _ hu))]
    rfl

theorem mk_tool_subs_missing (w : String → Option String) :
    ∀ ts : List String, (∃ t ∈ ts, w t = none) →
      ∃ e, mk_tool_subs w ts = Except.error e := by
  intro ts
  induction ts with
  | nil => rintro ⟨t, ht, _⟩; simp at ht
  | cons t ts ih =>
    rintro ⟨u, hu, hwu⟩
    rw [mk_tool_subs]
    rcases List.mem_cons.mp hu with rfl | hu
    · rw [hwu]; exact ⟨_, rfl⟩
    · cases hwt : w t
      · exact ⟨_, rfl⟩
      · obtain ⟨e, he⟩ := ih ⟨u, hu, hwu⟩
        rw [he]
        exact ⟨e, rfl⟩

/-! ## Claim theorems -/

/-- Claim C1, counterexample: the claim as stated is false, because no key
of the environment-variable mapping is a "0"/"1" feature flag keyed to the
presence of cuDNN — when cuDNN is present the mapping only gains the path
and version entries, and no key at all carries the value "1" in the
configuration where cuDNN alone is present. -/
theorem c1_counterexample : ¬ c1_claim :=
  fun h => no_cudnn_flag h.2.1

/-- Claim C1, amended: the presence booleans of CUDA, jemalloc and OpenCL
are each reflected by a dedicated feature flag (`TF_NEED_CUDA`,
`TF_NEED_JEMALLOC`, `TF_NEED_OPENCL`) set to "1" when the root resolves
and "0" when it does not; cuDNN has no such flag; and no other feature
flag of the mapping is affected by the four presence booleans. -/
theorem c1_presence_flags :
    isPresenceFlag (fun c => c.cudaRoot.isSome) "TF_NEED_CUDA" ∧
    isPresenceFlag (fun c => c.jemallocRoot.isSome) "TF_NEED_JEMALLOC" ∧
    isPresenceFlag (fun c => c.openclRoot.isSome) "TF_NEED_OPENCL" ∧
    (¬ ∃ k, isPresenceFlag (fun c => c.cudnnRoot.isSome) k) ∧
    flags_frame :=
  ⟨tf_need_cuda_flag, tf_need_jemalloc_flag, tf_need_opencl_flag,
    no_cudnn_flag, flags_frame_holds⟩

/-- Claim C2: the install step requires the wheel glob to match exactly
one file.  Zero matches and more than one match both produce the fatal
error (no install command); a unique match produces exactly the pip
command installing that file into the target prefix with
`--ignore-installed`, which forces reinstallation of a same-versioned
wheel. -/
theorem c2_wheel_isolation (installdir p q : String) (l : List String) :
    (∃ e, install_whl installdir [] = Except.error e) ∧
    install_whl installdir [p] =
      Except.ok
        ("pip install --ignore-installed --prefix=" ++ installdir ++
          " " ++ p) ∧
    (∃ e, install_whl installdir (p :: q :: l) = Except.error e) :=
  ⟨⟨_, rfl⟩, rfl, ⟨_, rfl⟩⟩

/-- Claim C3: the build step requires the GCC include-directory glob to
match exactly one path.  Zero matches and more than one match both
produce the fatal error; a unique match is returned as the include
directory. -/
theorem c3_gcc_include_glob (p q : String) (l : List String) :
    (∃ e, pinpoint_gcc_inc [] = Except.error e) ∧
    pinpoint_gcc_inc [p] = Except.ok p ∧
    (∃ e, pinpoint_gcc_inc (p :: q :: l) = Except.error e) :=
  ⟨⟨_, rfl⟩, rfl, ⟨_, rfl⟩⟩

/-- Claim C4: when every tool of the fixed list resolves, the tool loop
produces the substitution rules mapping `/usr/bin/<tool>` to the resolved
path (in particular the rule for gcc); when some tool does not resolve,
the loop raises the fatal error; and patching a fabricated
toolchain-description file containing a hardcoded `/usr/bin/gcc` token
with those rules replaces the token with the resolved gcc path and leaves
no `/usr/bin/<tool>` reference from the fixed list in the file. -/
theorem c4_usr_bin_tool_patch (w : String → Option String)
    (f : String → String) (h : ∀ t ∈ tool_list, w t = some (f t)) :
    mk_tool_subs w tool_list = Except.ok (tool_rules f) ∧
    ("/usr/bin/gcc", f "gcc") ∈ tool_rules f ∧
    (∀ w' : String → Option String, (∃ t ∈ tool_list, w' t = none) →
      ∃ e, mk_tool_subs w' tool_list = Except.error e) ∧
    apply_subs (tool_rules (fun t => "/opt/binutils/bin/" ++ t))
        sample_crosstool = "tool_path: /opt/binutils/bin/gcc" ∧
    (∀ t ∈ tool_list,
      str_occurs ("/usr/bin/" ++ t)
        (apply_subs (tool_rules (fun t => "/opt/binutils/bin/" ++ t))
          sample_crosstool) = false) := by
  refine ⟨mk_tool_subs_resolved w f tool_list h, ?_,
    fun w' => mk_tool_subs_missing w' tool_list, by decide, by decide⟩
  simp [tool_rules, tool_list]

/-- Witness for C4 at the concrete resolver mapping every tool to
`/opt/binutils/bin/<tool>`. -/
theorem c4_usr_bin_tool_patch_witness :
    (∀ t ∈ tool_list,
      sample_resolver t = some ("/opt/binutils/bin/" ++ t)) ∧
    ("/usr/bin/gcc", "/opt/binutils/bin/gcc") ∈
      tool_rules (fun t => "/opt/binutils/bin/" ++ t) :=
  ⟨fun _ _ => rfl,
    (c4_usr_bin_tool_patch sample_resolver
      (fun t => "/opt/binutils/bin/" ++ t) (fun _ _ => rfl)).2.1⟩

/-- Claim C5: with `with_mkl_dnn = true` and the CUDA root resolved, the
assembled bazel command contains `--config=cuda`, `--config=mkl`, and the
fixed packaging-build target. -/
theorem c5_cuda_mkl_build_cmd (tmpdir buildopts : String) (pic : Bool) :
    "--config=cuda" ∈ build_cmd tmpdir pic buildopts true true ∧
    "--config=mkl" ∈ build_cmd tmpdir pic buildopts true true ∧
    "//tensorflow/tools/pip_package:build_pip_package" ∈
      build_cmd tmpdir pic buildopts true true := by
  cases pic <;> simp [build_cmd]

/-- Claim C6: when the CUDA root does not resolve, the configure mapping
contains none of the four accelerator-specific environment variables. -/
theorem c6_no_cuda_env_vars (c : ConfCtx) (h : c.cudaRoot = none) :
    (config_env_vars c).lookup "CUDA_TOOLKIT_PATH" = none ∧
    (config_env_vars c).lookup "GCC_HOST_COMPILER_PATH" = none ∧
    (config_env_vars c).lookup "TF_CUDA_COMPUTE_CAPABILITIES" = none ∧
    (config_env_vars c).lookup "TF_CUDA_VERSION" = none := by
  refine ⟨?_, ?_, ?_, ?_⟩ <;>
    · rw [config_env_vars, lookup_append, lookup_append, h]
      cases hc : c.cudnnRoot <;> simp [List.lookup]

/-- Witness for C6 at the concrete context without CUDA. -/
theorem c6_no_cuda_env_vars_witness :
    ctx_cudnn_only.cudaRoot = none ∧
    (config_env_vars ctx_cudnn_only).lookup "CUDA_TOOLKIT_PATH" = none :=
  ⟨rfl, (c6_no_cuda_env_vars ctx_cudnn_only rfl).1⟩

/-- Claim C7: the rule set of the build step contains the two
position-independent-executable substitution rules exactly when the `pic`
toolchain option is set, and the bazel command contains the extra
`--copt="-fPIC"` flag exactly when that option is set (the hypotheses
exclude the degenerate case of the user-supplied `buildopts` or the
output-base element textually coinciding with the flag). -/
theorem c7_pic_rules_and_flag (binutils_bin : String)
    (lib_paths inc_paths : List String) (resolve : String → String)
    (w : String → Option String) (f : String → String)
    (tmpdir buildopts : String)
    (h : ∀ t ∈ tool_list, w t = some (f t))
    (hb : buildopts ≠ "--copt=\"-fPIC\"")
    (ht : ("--output_base=" ++ tmpdir) ≠ "--copt=\"-fPIC\"") :
    (∀ pic : Bool,
      crosstool_regex_subs binutils_bin lib_paths inc_paths resolve w pic =
        Except.ok
          (crosstool_rules binutils_bin lib_paths inc_paths resolve
            (tool_rules f) pic)) ∧
    (("-fPIE", "-fPIC") ∈
        crosstool_rules binutils_bin lib_paths inc_paths resolve
          (tool_rules f) true ∧
      ("\"-pie\"", "\"-fPIC\"") ∈
        crosstool_rules binutils_bin lib_paths inc_paths resolve
          (tool_rules f) true) ∧
    (("-fPIE", "-fPIC") ∉
        crosstool_rules binutils_bin lib_paths inc_paths resolve
          (tool_rules f) false ∧
      ("\"-pie\"", "\"-fPIC\"") ∉
        crosstool_rules binutils_bin lib_paths inc_paths resolve
          (tool_rules f) false) ∧
    (∀ cu mk : Bool,
      "--copt=\"-fPIC\"" ∈ build_cmd tmpdir true buildopts cu mk) ∧
    (∀ cu mk : Bool,
      "--copt=\"-fPIC\"" ∉ build_cmd tmpdir false buildopts cu mk) := by
  have hmk := mk_tool_subs_resolved w f tool_list h
  refine ⟨fun pic => ?_, ⟨?_, ?_⟩, ⟨?_, ?_⟩, ?_, ?_⟩
  · rw [crosstool_regex_subs, hmk]; rfl
  · simp [crosstool_rules, tool_rules, tool_list]
  · simp [crosstool_rules, tool_rules, tool_list]
  · simp [crosstool_rules, tool_rules, tool_list]
  · simp [crosstool_rules, tool_rules, tool_list]
  · intro cu mk
    cases cu <;> cases mk <;> simp [build_cmd]
  · intro cu mk
    cases cu <;> cases mk <;>
      simp [build_cmd, Ne.symm hb, Ne.symm ht]

/-- Witness for C7 at concrete build-step inputs. -/
theorem c7_pic_rules_and_flag_witness :
    (∀ t ∈ tool_list,
      sample_resolver t = some ("/opt/binutils/bin/" ++ t)) ∧
    ("" : String) ≠ "--copt=\"-fPIC\"" ∧
    ("--output_base=" ++ "/tmp/bazel-build") ≠ "--copt=\"-fPIC\"" ∧
    ("-fPIE", "-fPIC") ∈
      crosstool_rules "/opt/binutils/bin" [] [] id
        (tool_rules (fun t => "/opt/binutils/bin/" ++ t)) true :=
  ⟨fun _ _ => rfl, by decide, by decide,
    (c7_pic_rules_and_flag "/opt/binutils/bin" [] [] id sample_resolver
      (fun t => "/opt/binutils/bin/" ++ t) "/tmp/bazel-build" ""
      (fun _ _ => rfl) (by decide) (by decide)).2.1.1⟩

/-- Claim C8: the configure step applies the environment variables of the
mapping in ascending sorted key order, for every possible contents of the
mapping: the setvar trace is a permutation of the mapping whose keys are
pairwise nondecreasing. -/
theorem c8_sorted_env_application :
    (∀ l : List (String × String),
      (env_apply_order l).Perm l ∧
      List.Pairwise (fun a b : String × String => a.1 ≤ b.1)
        (env_apply_order l)) ∧
    (∀ c : ConfCtx,
      configure_setvar_trace c = env_apply_order (config_env_vars c)) := by
  refine ⟨fun l => ⟨List.perm_insertionSort item_le l, ?_⟩, fun c => rfl⟩
  have hs : List.Sorted item_le (env_apply_order l) :=
    List.sorted_insertionSort item_le l
  refine hs.imp ?_
  intro a b hab
  rcases hab with hlt | ⟨heq, _⟩
  · exact le_of_lt hlt
  · exact le_of_eq heq

/-- Claim C9: the cuDNN entries are independent of CUDA — whenever the
cuDNN root resolves the mapping carries `CUDNN_INSTALL_PATH` and
`TF_CUDNN_VERSION`, even when CUDA is absent (in which case
`TF_NEED_CUDA` is "0"), and no "0"/"1" feature flag keyed to cuDNN
presence exists in the mapping. -/
theorem c9_cudnn_independent (c : ConfCtx) (root : String)
    (h : c.cudnnRoot = some root) :
    (config_env_vars c).lookup "CUDNN_INSTALL_PATH" = some root ∧
    (config_env_vars c).lookup "TF_CUDNN_VERSION" = some c.cudnnVersion ∧
    (c.cudaRoot = none →
      (config_env_vars c).lookup "TF_NEED_CUDA" = some "0") ∧
    (¬ ∃ k, isPresenceFlag (fun c => c.cudnnRoot.isSome) k) := by
  refine ⟨?_, ?_, fun hcu => ?_, no_cudnn_flag⟩
  · rw [config_env_vars, lookup_append, lookup_append, h]
    cases hc : c.cudaRoot <;> simp [List.lookup]
  · rw [config_env_vars, lookup_append, lookup_append, h]
    cases hc : c.cudaRoot <;> simp [List.lookup]
  · rw [config_env_vars, lookup_append, lookup_append, hcu]
    simp [List.lookup]

/-- Witness for C9 at the concrete context with only cuDNN present. -/
theorem c9_cudnn_independent_witness :
    ctx_cudnn_only.cudnnRoot = some "/sw/cuDNN/6.0" ∧
    (config_env_vars ctx_cudnn_only).lookup "CUDNN_INSTALL_PATH" =
      some "/sw/cuDNN/6.0" :=
  ⟨rfl, (c9_cudnn_independent ctx_cudnn_only "/sw/cuDNN/6.0" rfl).1⟩

/-- Claim C10: with `runtest = false` the test phase of the install step
leaves `$PYTHONPATH` unchanged and runs no command; with `runtest = true`
it sets `$PYTHONPATH` to the installed library location prepended
(colon-separated) to the previous value (empty string when previously
unset) and runs the two MNIST example scripts. -/
theorem c10_runtest_phase (installdir pylibdir start_dir python_cmd : String)
    (prev : Option String) (tmpdir1 tmpdir2 : String) :
    install_test_phase false installdir pylibdir start_dir python_cmd
      prev tmpdir1 tmpdir2 = (none, []) ∧
    install_test_phase true installdir pylibdir start_dir python_cmd
      prev tmpdir1 tmpdir2 =
      (some (path_join installdir pylibdir ++ ":" ++ prev.getD ""),
       [python_cmd ++ " " ++ mnist_path start_dir "mnist_softmax.py" ++
          " --data_dir " ++ tmpdir1,
        python_cmd ++ " " ++
          mnist_path start_dir "mnist_with_summaries.py" ++
          " --data_dir " ++ tmpdir2]) :=
  ⟨rfl, rfl⟩
